import Mathlib

/-
  Verification of the crop/zoom/rotation geometry engine of the BulkCrop
  repository (main variant, v4.5.2, plus the getCroppedImg legacy variant).

  The TypeScript state and operations are shallowly embedded: numbers become
  rationals, DOM canvases become plain records of the values the code writes
  into them, and asynchronous decode/encode steps become Option-valued
  functions supplied as parameters.
-/

namespace BulkCrop

/-- A rect `{x, y, width, height}` as used for both percent-unit crops and
source-pixel crops. -/
structure Rect where
  x : ℚ
  y : ℚ
  width : ℚ
  height : ℚ
deriving DecidableEq

/-- The editor state snapshot recorded in history (interface `EditorState`):
`{crop: Crop | undefined, aspect: number | undefined, rotation: number}`. -/
structure EditorState where
  crop : Option Rect
  aspect : Option ℚ
  rotation : ℤ
deriving DecidableEq

/-- A committed crop configuration stored on a gallery item
(`cropConfig: {crop, aspect, rotation}`, with a definite crop rect). -/
structure CropConfig where
  crop : Rect
  aspect : Option ℚ
  rotation : ℤ
deriving DecidableEq

/-- One gallery entry (interface `ImageItem`): the source url (opaque id),
the produced output bitmap url (`cropped`), and the saved `cropConfig`. -/
structure GalleryItem where
  url : ℕ
  cropped : Option ℕ
  cropConfig : Option CropConfig
deriving DecidableEq

/-- A decoded bitmap: its natural (native) dimensions. -/
structure Bitmap where
  naturalWidth : ℚ
  naturalHeight : ℚ
deriving DecidableEq

/-- The output canvas produced by the render pipeline: the integer surface
dimensions assigned to `canvas.width`/`canvas.height`, the source-pixel crop
rect it was computed from, and the rotation drawn with. -/
structure Canvas where
  width : ℤ
  height : ℤ
  cropX : ℚ
  cropY : ℚ
  cropW : ℚ
  cropH : ℚ
  rotation : ℤ
deriving DecidableEq

/-! ### HistoryStack (pushToHistory / undo / redo, part_003 lines 679-722) -/

/-- The non-duplicate branch of `pushToHistory`: append the new state to the
truncated history and evict the oldest entry past capacity 50
(`newHistory.push(state); if (newHistory.length > 50) newHistory.shift()`). -/
def pushTrunc (newHistory : List EditorState) (st : EditorState) : List EditorState :=
  let pushed := newHistory ++ [st]
  if pushed.length > 50 then pushed.drop 1 else pushed

/-- `pushToHistory` (part_003 lines 679-698). `setHistory` truncates after
the pointer (`prev.slice(0, historyPointer + 1)`), returns `prev` unchanged
when the pushed state equals the entry at the pointer, and otherwise appends
with capacity eviction; `setHistoryPointer` increments the pointer,
capping it at 49 (`newPointer >= 50 ? 49 : newPointer`). Both updates run on
every call; the pointer update is not guarded by the duplicate check. -/
def pushToHistory (history : List EditorState) (pointer : ℤ) (st : EditorState) :
    List EditorState × ℤ :=
  let newHistory := history.take (pointer + 1).toNat
  let hist :=
    match newHistory.getLast? with
    | some last => if last = st then history else pushTrunc newHistory st
    | none => pushTrunc newHistory st
  let ptr := if pointer + 1 ≥ 50 then 49 else pointer + 1
  (hist, ptr)

/-! ### GeometryModel: normalized-rect to pixel-rect conversion -/

/-- The per-item pixel rect of `handleApplyAll` (part_003 line 920):
`{ x: (xP * tempImg.naturalWidth) / 100, y: (yP * tempImg.naturalHeight) / 100,
   width: (wP * tempImg.naturalWidth) / 100, height: (hP * tempImg.naturalHeight) / 100 }`
where `(xP, yP, wP, hP)` is a percent rect and the dimensions are the item's
own natural dimensions. No clamping is applied. -/
def toPixelRect (r : Rect) (naturalW naturalH : ℚ) : Rect :=
  { x := r.x * naturalW / 100
    y := r.y * naturalH / 100
    width := r.width * naturalW / 100
    height := r.height * naturalH / 100 }

/-- The percent rect computed from the reference item's completed crop
(part_003 lines 912-915): `xP = (completedCrop.x / sourceImg.width) * 100`,
and analogously for y, width, height. -/
def completedToPercent (completedCrop : Rect) (srcW srcH : ℚ) : Rect :=
  { x := completedCrop.x / srcW * 100
    y := completedCrop.y / srcH * 100
    width := completedCrop.width / srcW * 100
    height := completedCrop.height / srcH * 100 }

/-! ### RenderPipeline -/

/-- `getProcessedCanvas` (part_003 lines 875-894): scales the completed
display-space crop to source pixels by `naturalWidth / width` and
`naturalHeight / height`, and sizes the canvas with
`canvas.width = Math.ceil(cropW); canvas.height = Math.ceil(cropH)`. -/
def getProcessedCanvas (naturalW naturalH imageW imageH : ℚ) (cropCfg : Rect)
    (rotation : ℤ) : Canvas :=
  let scaleX := naturalW / imageW
  let scaleY := naturalH / imageH
  let cropX := cropCfg.x * scaleX
  let cropY := cropCfg.y * scaleY
  let cropW := cropCfg.width * scaleX
  let cropH := cropCfg.height * scaleY
  { width := ⌈cropW⌉, height := ⌈cropH⌉,
    cropX := cropX, cropY := cropY, cropW := cropW, cropH := cropH,
    rotation := rotation }

/-- The canvas built inside `handleApplyAll` for one gallery item
(part_003 lines 921-931): `canvas.width = Math.ceil(pxCrop.width);
canvas.height = Math.ceil(pxCrop.height)`, then white fill, translate to the
canvas center, rotate, and draw the item's image at the negative crop
center. -/
def mkBatchCanvas (pxCrop : Rect) (rotation : ℤ) : Canvas :=
  { width := ⌈pxCrop.width⌉, height := ⌈pxCrop.height⌉,
    cropX := pxCrop.x, cropY := pxCrop.y, cropW := pxCrop.width, cropH := pxCrop.height,
    rotation := rotation }

/-- `getCroppedImg` of the part_001 variant (lines 8-19) assigns the
fractional source-pixel width `crop.width * scaleX` directly to
`canvas.width`; the canvas width attribute is an integer, so the assigned
value is truncated (floored for the nonnegative sizes that occur here)
rather than rounded up. -/
def getCroppedImgCanvasWidth (cropWidth scaleX : ℚ) : ℤ :=
  ⌊cropWidth * scaleX⌋

/-! ### BatchApplyEngine (handleApplyAll, part_003 lines 908-938) -/

/-- `Promise.all` over a list of per-item results: resolves to the list of
values exactly when every per-item promise resolves; if any item's promise
never settles, the aggregate never settles (modelled as `none`). -/
def promiseAll {α : Type} : List (Option α) → Option (List α)
  | [] => some []
  | none :: _ => none
  | some a :: rest =>
    match promiseAll rest with
    | some l => some (a :: l)
    | none => none

/-- The body of `handleApplyAll`'s `images.map(async (img) => ...)` for one
item (part_003 lines 916-933). Decoding the item's url
(`tempImg.onload`) that never fires leaves the item's promise pending
(`none`). On success, the percent rect is converted with the item's own
natural dimensions, the item's canvas is produced, and the encode result
(`canvas.toBlob`, possibly null) is stored as `cropped`, with the snapshot
stored as `cropConfig` — whether or not the encode produced data. -/
def applyAllItem (decode : ℕ → Option Bitmap) (encode : Canvas → Option ℕ)
    (pRect : Rect) (aspect : Option ℚ) (rotation : ℤ) (img : GalleryItem) :
    Option GalleryItem :=
  match decode img.url with
  | none => none
  | some tempImg =>
    let pxCrop := toPixelRect pRect tempImg.naturalWidth tempImg.naturalHeight
    some { img with
            cropped := encode (mkBatchCanvas pxCrop rotation)
            cropConfig := some { crop := pRect, aspect := aspect, rotation := rotation } }

/-- `handleApplyAll` (part_003 lines 908-938): computes the reference percent
rect from the completed crop, runs the per-item body over the whole gallery
under `Promise.all`, and commits the updated list only when the aggregate
resolves; the success alert is unconditional and no per-item failure is
collected anywhere. -/
def handleApplyAll (decode : ℕ → Option Bitmap) (encode : Canvas → Option ℕ)
    (completedCrop : Rect) (srcW srcH : ℚ) (aspect : Option ℚ) (rotation : ℤ)
    (images : List GalleryItem) : Option (List GalleryItem) :=
  let pRect := completedToPercent completedCrop srcW srcH
  promiseAll (images.map (applyAllItem decode encode pRect aspect rotation))

/-! ### Saving one item (handleSave, part_003 lines 896-906) -/

/-- `handleSave`: encode the processed canvas with `canvas.toBlob`; when the
blob is null the function returns early (`if (!previewBlob) return`), leaving
`images` untouched; otherwise the edited item receives the new preview url
and crop config. -/
def handleSave (encode : Canvas → Option ℕ) (canvas : Canvas)
    (images : List GalleryItem) (editingIdx : ℕ) (crop : Rect)
    (aspect : Option ℚ) (rotation : ℤ) : List GalleryItem :=
  match encode canvas with
  | none => images
  | some previewUrl =>
    images.mapIdx fun i img =>
      if i = editingIdx then
        { img with
            cropped := some previewUrl
            cropConfig := some { crop := crop, aspect := aspect, rotation := rotation } }
      else img

/-! ### ZoomPanController (part_003 lines 562, 610-626, 870-873, 759-766) -/

/-- The constant scroll padding around the image (`const PADDING = 2000`). -/
def PADDING : ℚ := 2000

/-- Zoom clamping as written at every zoom update:
`Math.min(20, Math.max(0.001, z))`. -/
def clampZoom (z : ℚ) : ℚ :=
  min 20 (max (1 / 1000) z)

/-- The zoom/pan state: the zoom scalar and the viewport scroll offsets. -/
structure ZoomPan where
  zoom : ℚ
  scrollLeft : ℚ
  scrollTop : ℚ
deriving DecidableEq

/-- `handleZoomAction(factor)` followed by the layout effect: first
`updateZoomAnchor` stores the image-space point under the view point
(`anchor = (scroll + view - PADDING) / zoom`), then the zoom becomes
`min(20, max(0.001, zoom * factor))`, and the layout effect re-applies
`applyZoomScroll` — `scroll = PADDING + anchor * newZoom - view` — whenever
the zoom moved by more than `0.0001`. -/
def zoomAt (factor viewX viewY : ℚ) (s : ZoomPan) : ZoomPan :=
  let anchorX := (s.scrollLeft + viewX - PADDING) / s.zoom
  let anchorY := (s.scrollTop + viewY - PADDING) / s.zoom
  let newZoom := clampZoom (s.zoom * factor)
  if |newZoom - s.zoom| > 1 / 10000 then
    { zoom := newZoom
      scrollLeft := PADDING + anchorX * newZoom - viewX
      scrollTop := PADDING + anchorY * newZoom - viewY }
  else
    { s with zoom := newZoom }

/-- The image-space x-coordinate currently under the screen point `viewX`
(the inverse mapping used by `updateZoomAnchor`). -/
def imagePointX (viewX : ℚ) (s : ZoomPan) : ℚ :=
  (s.scrollLeft + viewX - PADDING) / s.zoom

/-- The image-space y-coordinate currently under the screen point `viewY`. -/
def imagePointY (viewY : ℚ) (s : ZoomPan) : ℚ :=
  (s.scrollTop + viewY - PADDING) / s.zoom

/-! ### GeometryModel: aspect selection (onAspectChange, part_003 lines 724-738) -/

/-- The full-frame percent rect `{ unit: '%', x: 0, y: 0, width: 100, height: 100 }`. -/
def fullFrameRect : Rect :=
  { x := 0, y := 0, width := 100, height := 100 }

/-- The crop rect computed by `onAspectChange`. The centered aspect crop of
the external react-image-crop library
(`centerCrop(makeAspectCrop({unit:'%',width:100}, a, w, h), w, h)`) is not
part of this repository and is abstracted as the parameter `centerAspect`.
The guard mirrors `newAspect === undefined ||
(currentOriginalAspect && Math.abs(newAspect - currentOriginalAspect) < 0.001)`,
where `currentOriginalAspect` is truthy exactly when it is present and
nonzero. -/
def onAspectChangeCrop (centerAspect : ℚ → ℚ → ℚ → Rect)
    (origAspect : Option ℚ) (width height : ℚ) : Option ℚ → Rect
  | none => fullFrameRect
  | some a =>
    match origAspect with
    | some o => if o ≠ 0 ∧ |a - o| < 1 / 1000 then fullFrameRect
                else centerAspect a width height
    | none => centerAspect a width height

/-! ### Canvas 2D transform semantics for getProcessedCanvas rotation
(part_003 lines 886-893) -/

/-- A point of the plane. -/
structure Vec2 where
  x : ℚ
  y : ℚ
deriving DecidableEq

/-- A canvas 2D current transform matrix: device = M · user + d. -/
structure CTM where
  m11 : ℚ
  m21 : ℚ
  m12 : ℚ
  m22 : ℚ
  dx : ℚ
  dy : ℚ
deriving DecidableEq

/-- The identity transform of a fresh 2D context. -/
def CTM.identity : CTM :=
  { m11 := 1, m21 := 0, m12 := 0, m22 := 1, dx := 0, dy := 0 }

/-- Apply a transform to a user-space point. -/
def CTM.apply (T : CTM) (p : Vec2) : Vec2 :=
  { x := T.m11 * p.x + T.m12 * p.y + T.dx
    y := T.m21 * p.x + T.m22 * p.y + T.dy }

/-- `ctx.translate(tx, ty)`: pre-compose a translation. -/
def CTM.translate (T : CTM) (tx ty : ℚ) : CTM :=
  { T with
      dx := T.m11 * tx + T.m12 * ty + T.dx
      dy := T.m21 * tx + T.m22 * ty + T.dy }

/-- `ctx.rotate(θ)`: pre-compose a rotation, given by the cosine `c` and
sine `s` of the angle. -/
def CTM.rotate (T : CTM) (c s : ℚ) : CTM :=
  { T with
      m11 := T.m11 * c + T.m12 * s
      m21 := T.m21 * c + T.m22 * s
      m12 := T.m11 * (-s) + T.m12 * c
      m22 := T.m21 * (-s) + T.m22 * c }

/-- The transform in effect when `getProcessedCanvas` draws:
`ctx.translate(canvas.width / 2, canvas.height / 2); ctx.rotate(θ)`
(part_003 lines 887-888), with the rotation angle given by cosine `c` and
sine `s`. -/
def getProcessedCanvasCTM (canvasW canvasH c s : ℚ) : CTM :=
  (CTM.identity.translate (canvasW / 2) (canvasH / 2)).rotate c s

/-- The device position at which `getProcessedCanvas` paints the source
pixel `p`: the draw call
`ctx.drawImage(image, 0, 0, natW, natH, -imgCenterX, -imgCenterY, natW, natH)`
places source pixel `p` at user point `(-imgCenterX + p.x, -imgCenterY + p.y)`
where `(imgCenterX, imgCenterY)` is the crop rect's center in source pixels
(part_003 lines 889-891), and the active transform maps it to the device. -/
def getProcessedCanvasDest (canvasW canvasH cropX cropY cropW cropH c s : ℚ)
    (p : Vec2) : Vec2 :=
  let imgCenterX := cropX + cropW / 2
  let imgCenterY := cropY + cropH / 2
  (getProcessedCanvasCTM canvasW canvasH c s).apply
    { x := -imgCenterX + p.x, y := -imgCenterY + p.y }

/-! ### Editor session switching (navigateTo and the session-init effect,
part_003 lines 740-748 and 768-794) -/

/-- The whole-app state the switching logic touches. -/
structure AppState where
  images : List GalleryItem
  editingIdx : Option ℕ
  crop : Option Rect
  aspect : Option ℚ
  rotation : ℤ
  history : List EditorState
  historyPointer : ℤ
deriving DecidableEq

/-- `navigateTo(newIdx)` (part_003 lines 740-748): when an item is being
edited and a crop is defined, write the current `{crop, aspect, rotation}`
back onto the outgoing item's `cropConfig`
(`prev.map((img, i) => i === editingIdx ? {...img, cropConfig: ...} : img)`),
then set the editing index. -/
def navigateTo (s : AppState) (newIdx : Option ℕ) : AppState :=
  let images' :=
    match s.editingIdx, s.crop with
    | some i, some c =>
      s.images.mapIdx fun j img =>
        if j = i then
          { img with cropConfig := some { crop := c, aspect := s.aspect, rotation := s.rotation } }
        else img
    | _, _ => s.images
  { s with images := images', editingIdx := newIdx }

/-- The starting snapshot of an editing session on `img`: its saved
`cropConfig` when present, otherwise the default
`{crop: {0,0,100,100}, aspect: undefined, rotation: 0}`
(part_003 lines 772-781; `cropConfig.rotation || 0` equals the stored
rotation since an absent value only arises with an absent config). -/
def startConfig (img : GalleryItem) : CropConfig :=
  match img.cropConfig with
  | some cfg => cfg
  | none => { crop := fullFrameRect, aspect := none, rotation := 0 }

/-- The editor-session init effect (part_003 lines 768-794): when an item is
being edited and exists, load its starting snapshot into the live
crop/aspect/rotation and reset the history to that single entry with the
pointer at 0; otherwise leave the state alone. -/
def sessionInit (s : AppState) : AppState :=
  match s.editingIdx with
  | some i =>
    match s.images[i]? with
    | some currentImg =>
      let cfg := startConfig currentImg
      { s with
          crop := some cfg.crop
          aspect := cfg.aspect
          rotation := cfg.rotation
          history := [{ crop := some cfg.crop, aspect := cfg.aspect, rotation := cfg.rotation }]
          historyPointer := 0 }
    | none => s
  | none => s

/-- Plain `setEditingIdx` (the thumbnail click handler). -/
def setEditingIdx (s : AppState) (idx : Option ℕ) : AppState :=
  { s with editingIdx := idx }

/-- Switching the editor from the current item to item `j` as it happens in
the running app: close via `navigateTo(null)` (persisting the outgoing
snapshot), let the session effect run, open item `j`, and let the session
effect run again. -/
def switchItem (s : AppState) (j : ℕ) : AppState :=
  sessionInit (setEditingIdx (sessionInit (navigateTo s none)) (some j))

/-! ### Concrete sample data used in scenario theorems -/

/-- A sample snapshot: the default full-frame state. -/
def snapA : EditorState :=
  { crop := some fullFrameRect, aspect := none, rotation := 0 }

/-- A gallery item with nothing produced yet (url 0). -/
def imgA : GalleryItem := { url := 0, cropped := none, cropConfig := none }

/-- A gallery item with nothing produced yet (url 1). -/
def imgB : GalleryItem := { url := 1, cropped := none, cropConfig := none }

/-- A gallery item that already has an output bitmap (url 7). -/
def imgDone : GalleryItem := { url := 1, cropped := some 7, cropConfig := none }

/-- A decode environment under which the image with url 0 never decodes. -/
def decodeFail0 : ℕ → Option Bitmap :=
  fun u => if u = 0 then none else some { naturalWidth := 100, naturalHeight := 100 }

/-- A decode environment under which every image decodes as 100×100. -/
def decodeAll : ℕ → Option Bitmap :=
  fun _ => some { naturalWidth := 100, naturalHeight := 100 }

/-- An encode environment that always produces a blob url. -/
def encodeOk : Canvas → Option ℕ := fun _ => some 1

/-- An encode environment whose toBlob always yields nothing. -/
def encodeNone : Canvas → Option ℕ := fun _ => none

/-- The reference completed crop of the batch scenarios. -/
def refCrop : Rect := { x := 25, y := 25, width := 50, height := 50 }

/-- A saved crop config for the incoming item of the switching scenario. -/
def cfg1 : CropConfig :=
  { crop := { x := 1, y := 2, width := 3, height := 4 }, aspect := some 1, rotation := 5 }

/-- The incoming item of the switching scenario, carrying `cfg1`. -/
def item1 : GalleryItem := { url := 1, cropped := none, cropConfig := some cfg1 }

/-- An app state editing item 0 of a two-item gallery. -/
def sW : AppState :=
  { images := [imgA, item1], editingIdx := some 0,
    crop := some { x := 9, y := 9, width := 10, height := 10 },
    aspect := none, rotation := 7, history := [], historyPointer := 3 }

/-! ### Helper lemmas -/

theorem promiseAll_map_none {α β : Type} (f : α → Option β) {l : List α} {x : α}
    (hx : x ∈ l) (hfx : f x = none) :
    promiseAll (l.map f) = none := by
  induction l with
  | nil => cases hx
  | cons a t ih =>
    rcases List.mem_cons.mp hx with h | h
    · subst h
      simp only [List.map_cons, hfx, promiseAll]
    · cases hfa : f a with
      | none => simp only [List.map_cons, hfa, promiseAll]
      | some b => simp only [List.map_cons, hfa, promiseAll, ih h]

theorem promiseAll_map_getD {α : Type} (f : α → Option α) {l : List α}
    (h : ∀ x ∈ l, f x ≠ none) :
    promiseAll (l.map f) = some (l.map fun x => (f x).getD x) := by
  induction l with
  | nil => rfl
  | cons a t ih =>
    cases hfa : f a with
    | none => exact absurd hfa (h a (List.mem_cons_self a t))
    | some b =>
      simp only [List.map_cons, hfa, promiseAll, Option.getD_some,
        ih fun x hx => h x (List.mem_cons_of_mem a hx)]

theorem getElem?_mapIdx {α β : Type} (l : List α) (f : ℕ → α → β) (k : ℕ) :
    (l.mapIdx f)[k]? = (l[k]?).map (f k) := by
  rcases Nat.lt_or_ge k l.length with h | h
  · have h' : k < (l.mapIdx f).length := by simpa [List.length_mapIdx] using h
    rw [List.getElem?_eq_getElem h', List.getElem?_eq_getElem h]
    have := List.get_mapIdx l f k h
    simpa [List.get_eq_getElem] using this
  · have h' : (l.mapIdx f).length ≤ k := by simpa [List.length_mapIdx] using h
    rw [List.getElem?_eq_none h', List.getElem?_eq_none h]
    rfl

/-! ### Claim theorems -/

/-- C1: evaluating `pushToHistory` at a one-entry history whose entry at the
pointer equals the pushed snapshot: the stack is returned unchanged by the
duplicate check, but the pointer update — which is not guarded by that
check — still increments the pointer from 0 to 1, so the push is not a
no-op. -/
theorem C1_push_duplicate_increments_pointer :
    pushToHistory [snapA] 0 snapA = ([snapA], 1) ∧ (1 : ℤ) ≠ 0 := by
  exact ⟨rfl, by decide⟩

/-- C2 counterexample: with two gallery items of which the first one's
source bitmap cannot be decoded, the batch apply never settles (the
`Promise.all` aggregate stays pending, modelled as `none`): although the
second item would process fine on its own, its result is never stored and no
failure is collected or reported. -/
theorem C2_decode_failure_blocks_batch :
    handleApplyAll decodeFail0 encodeOk refCrop 100 100 none 0 [imgA, imgB] = none ∧
    (applyAllItem decodeFail0 encodeOk (completedToPercent refCrop 100 100)
      none 0 imgB).isSome = true := by
  exact ⟨rfl, rfl⟩

/-- C2 (amended): during a batch apply, a decode failure on any item blocks
the whole batch from completing — nothing is stored for any item and no
failure is reported; when every item decodes, the batch completes with each
item updated independently by the per-item body (so only encode failures are
isolated per item). -/
theorem C2_batch_failure_policy (decode : ℕ → Option Bitmap)
    (encode : Canvas → Option ℕ) (completedCrop : Rect) (srcW srcH : ℚ)
    (aspect : Option ℚ) (rotation : ℤ) (images : List GalleryItem) :
    ((∃ img ∈ images, decode img.url = none) →
      handleApplyAll decode encode completedCrop srcW srcH aspect rotation images = none) ∧
    ((∀ img ∈ images, decode img.url ≠ none) →
      handleApplyAll decode encode completedCrop srcW srcH aspect rotation images =
        some (images.map fun img =>
          (applyAllItem decode encode (completedToPercent completedCrop srcW srcH)
            aspect rotation img).getD img)) := by
  constructor
  · rintro ⟨img, hmem, hdec⟩
    unfold handleApplyAll
    exact promiseAll_map_none _ hmem (by simp [applyAllItem, hdec])
  · intro h
    unfold handleApplyAll
    refine promiseAll_map_getD _ fun x hx => ?_
    cases hdec : decode x.url with
    | none => exact absurd hdec (h x hx)
    | some b => simp [applyAllItem, hdec]

/-- C2 witness: the amended policy applied to a concrete two-item gallery in
which every item decodes. -/
theorem C2_batch_failure_policy_witness :
    handleApplyAll decodeAll encodeOk refCrop 100 100 none 0 [imgA, imgB] =
      some ([imgA, imgB].map fun img =>
        (applyAllItem decodeAll encodeOk (completedToPercent refCrop 100 100)
          none 0 img).getD img) :=
  (C2_batch_failure_policy decodeAll encodeOk refCrop 100 100 none 0 [imgA, imgB]).2
    (by intro img hmem; simp [decodeAll])

/-- C3: the normalized-to-pixel conversion satisfies
`pixel.x = r.x / 100 * naturalWidth` and analogously for y, width and
height; the 25/25/50/50 selection against native 1000×500 yields
250/125/500/250; and the per-item batch body converts with the item's own
decoded natural dimensions, not the reference item's. -/
theorem C3_toPixelRect_own_dims :
    (∀ (r : Rect) (w h : ℚ), toPixelRect r w h =
      { x := r.x / 100 * w, y := r.y / 100 * h,
        width := r.width / 100 * w, height := r.height / 100 * h }) ∧
    toPixelRect { x := 25, y := 25, width := 50, height := 50 } 1000 500 =
      { x := 250, y := 125, width := 500, height := 250 } ∧
    (∀ (decode : ℕ → Option Bitmap) (encode : Canvas → Option ℕ) (pRect : Rect)
      (aspect : Option ℚ) (rotation : ℤ) (img : GalleryItem) (bmp : Bitmap),
      decode img.url = some bmp →
      applyAllItem decode encode pRect aspect rotation img =
        some { img with
                cropped := encode (mkBatchCanvas
                  (toPixelRect pRect bmp.naturalWidth bmp.naturalHeight) rotation)
                cropConfig := some { crop := pRect, aspect := aspect, rotation := rotation } }) := by
  refine ⟨?_, by norm_num [toPixelRect, Rect.mk.injEq], ?_⟩
  · intro r w h
    simp only [toPixelRect, Rect.mk.injEq]
    refine ⟨?_, ?_, ?_, ?_⟩ <;> ring
  · intro decode encode pRect aspect rotation img bmp hdec
    simp [applyAllItem, hdec]

/-- C3 witness: the per-item conversion applied to a concrete item decoding
to 1000×500. -/
theorem C3_toPixelRect_own_dims_witness :
    applyAllItem (fun _ => some { naturalWidth := 1000, naturalHeight := 500 })
      encodeOk refCrop none 0 imgB =
      some { imgB with
              cropped := encodeOk (mkBatchCanvas (toPixelRect refCrop 1000 500) 0)
              cropConfig := some { crop := refCrop, aspect := none, rotation := 0 } } :=
  C3_toPixelRect_own_dims.2.2 (fun _ => some { naturalWidth := 1000, naturalHeight := 500 })
    encodeOk refCrop none 0 imgB { naturalWidth := 1000, naturalHeight := 500 } rfl

/-- C4 counterexample: the normalized rect 60/0/60/100 has every component
inside [0,100] and positive width and height, yet its conversion against
native dimensions 100×100 ends at x + width = 120 > 100: the conversion
performs no clamping to the native bounds. -/
theorem C4_unclamped_overflow :
    ((0 : ℚ) ≤ 60 ∧ (60 : ℚ) ≤ 100 ∧ (0 : ℚ) < 60 ∧ (0 : ℚ) < 100) ∧
    ¬ ((toPixelRect { x := 60, y := 0, width := 60, height := 100 } 100 100).x +
       (toPixelRect { x := 60, y := 0, width := 60, height := 100 } 100 100).width ≤ 100) := by
  exact ⟨by norm_num, by norm_num [toPixelRect]⟩

/-- C4 (amended): the conversion is linear and performs no clamping; the
produced pixel rect satisfies `0 ≤ x`, `0 ≤ y`, `x + width ≤ W` and
`y + height ≤ H` exactly under the additional assumption that the normalized
rect itself lies inside the [0,100] frame (nonnegative components with
`x + width ≤ 100` and `y + height ≤ 100`) and the native dimensions are
nonnegative. -/
theorem C4_pixelRect_bounds (r : Rect) (W H : ℚ)
    (hx : 0 ≤ r.x) (hy : 0 ≤ r.y) (hw : 0 ≤ r.width) (hh : 0 ≤ r.height)
    (hxw : r.x + r.width ≤ 100) (hyh : r.y + r.height ≤ 100)
    (hW : 0 ≤ W) (hH : 0 ≤ H) :
    0 ≤ (toPixelRect r W H).x ∧ 0 ≤ (toPixelRect r W H).y ∧
    (toPixelRect r W H).x + (toPixelRect r W H).width ≤ W ∧
    (toPixelRect r W H).y + (toPixelRect r W H).height ≤ H := by
  simp only [toPixelRect]
  refine ⟨by positivity, by positivity, ?_, ?_⟩
  · linarith [mul_le_mul_of_nonneg_right hxw hW]
  · linarith [mul_le_mul_of_nonneg_right hyh hH]

/-- C4 witness: the bounds at the concrete 25/25/50/50 rect on 1000×500. -/
theorem C4_pixelRect_bounds_witness :
    0 ≤ (toPixelRect refCrop 1000 500).x ∧ 0 ≤ (toPixelRect refCrop 1000 500).y ∧
    (toPixelRect refCrop 1000 500).x + (toPixelRect refCrop 1000 500).width ≤ 1000 ∧
    (toPixelRect refCrop 1000 500).y + (toPixelRect refCrop 1000 500).height ≤ 500 :=
  C4_pixelRect_bounds refCrop 1000 500 (by norm_num [refCrop]) (by norm_num [refCrop])
    (by norm_num [refCrop]) (by norm_num [refCrop]) (by norm_num [refCrop])
    (by norm_num [refCrop]) (by norm_num) (by norm_num)

/-- C5 counterexample: the part_001 `getCroppedImg` pipeline, handed a crop
of fractional source-pixel width 10.5 (crop width 10.5 at scale 1), sizes
its canvas to 10 — not `ceil(10.5) = 11` — so that output surface is
smaller than the true selection. -/
theorem C5_getCroppedImg_truncates :
    getCroppedImgCanvasWidth (21 / 2) 1 = 10 ∧
    (⌈(21 / 2 : ℚ)⌉ : ℤ) = 11 ∧
    ((getCroppedImgCanvasWidth (21 / 2) 1 : ℤ) : ℚ) < 21 / 2 := by
  refine ⟨by norm_num [getCroppedImgCanvasWidth], ?_,
    by norm_num [getCroppedImgCanvasWidth]⟩
  rw [Int.ceil_eq_iff]
  norm_num

/-- C5 (amended): in the main pipeline — `getProcessedCanvas` and the
per-item canvas of `handleApplyAll` — the output surface is sized
`ceil(pixel width) × ceil(pixel height)` and is therefore never smaller than
the true selection; the part_001 `getCroppedImg` variant instead truncates
the fractional size (see the counterexample). -/
theorem C5_ceil_dims :
    (∀ (naturalW naturalH imageW imageH : ℚ) (cropCfg : Rect) (rotation : ℤ),
      (getProcessedCanvas naturalW naturalH imageW imageH cropCfg rotation).width =
        ⌈(getProcessedCanvas naturalW naturalH imageW imageH cropCfg rotation).cropW⌉ ∧
      (getProcessedCanvas naturalW naturalH imageW imageH cropCfg rotation).height =
        ⌈(getProcessedCanvas naturalW naturalH imageW imageH cropCfg rotation).cropH⌉ ∧
      (getProcessedCanvas naturalW naturalH imageW imageH cropCfg rotation).cropW ≤
        ((getProcessedCanvas naturalW naturalH imageW imageH cropCfg rotation).width : ℚ) ∧
      (getProcessedCanvas naturalW naturalH imageW imageH cropCfg rotation).cropH ≤
        ((getProcessedCanvas naturalW naturalH imageW imageH cropCfg rotation).height : ℚ)) ∧
    (∀ (pxCrop : Rect) (rotation : ℤ),
      (mkBatchCanvas pxCrop rotation).width = ⌈pxCrop.width⌉ ∧
      (mkBatchCanvas pxCrop rotation).height = ⌈pxCrop.height⌉ ∧
      pxCrop.width ≤ ((mkBatchCanvas pxCrop rotation).width : ℚ) ∧
      pxCrop.height ≤ ((mkBatchCanvas pxCrop rotation).height : ℚ)) := by
  constructor
  · intro naturalW naturalH imageW imageH cropCfg rotation
    refine ⟨rfl, rfl, ?_, ?_⟩ <;>
      simpa [getProcessedCanvas] using Int.le_ceil _
  · intro pxCrop rotation
    refine ⟨rfl, rfl, ?_, ?_⟩ <;>
      simpa [mkBatchCanvas] using Int.le_ceil _

/-- C6: the op order of `getProcessedCanvas` — translate to the surface
center, rotate, draw the source at the negative crop center — makes the
composite source-to-device map `p ↦ center + R(p − cropCenter)` for every
rotation (given by its cosine and sine): the crop rect's own center is sent
to the surface center at every angle (it is the pivot), while for instance
the center (50,50) of a 100×100 source cropped at (0,0,10,10) is moved by a
90° rotation (neither the source-image center nor any other point is the
pivot). -/
theorem C6_rotation_pivots_on_crop_center :
    (∀ (cw ch cx cy cwid chei c s : ℚ) (p : Vec2),
      getProcessedCanvasDest cw ch cx cy cwid chei c s p =
        { x := cw / 2 + (c * (p.x - (cx + cwid / 2)) - s * (p.y - (cy + chei / 2)))
          y := ch / 2 + (s * (p.x - (cx + cwid / 2)) + c * (p.y - (cy + chei / 2))) }) ∧
    (∀ (cw ch cx cy cwid chei c s : ℚ),
      getProcessedCanvasDest cw ch cx cy cwid chei c s
        { x := cx + cwid / 2, y := cy + chei / 2 } = { x := cw / 2, y := ch / 2 }) ∧
    getProcessedCanvasDest 10 10 0 0 10 10 0 1 { x := 50, y := 50 } ≠
      getProcessedCanvasDest 10 10 0 0 10 10 1 0 { x := 50, y := 50 } := by
  refine ⟨?_, ?_, ?_⟩
  · intro cw ch cx cy cwid chei c s p
    simp only [getProcessedCanvasDest, getProcessedCanvasCTM, CTM.identity,
      CTM.translate, CTM.rotate, CTM.apply, Vec2.mk.injEq]
    constructor <;> ring
  · intro cw ch cx cy cwid chei c s
    simp only [getProcessedCanvasDest, getProcessedCanvasCTM, CTM.identity,
      CTM.translate, CTM.rotate, CTM.apply, Vec2.mk.injEq]
    constructor <;> ring
  · intro hcontra
    have hx := congrArg Vec2.x hcontra
    norm_num [getProcessedCanvasDest, getProcessedCanvasCTM, CTM.identity,
      CTM.translate, CTM.rotate, CTM.apply] at hx

/-- C7 counterexample: starting at zoom 16 — inside the controller's valid
range [0.001, 20] — `zoomAt(2.0, focal)` clamps the doubled zoom to 20, and
the following `zoomAt(0.5, focal)` lands at 10, not back at 16. -/
theorem C7_zoom_clamp_breaks_inverse :
    ((1 / 1000 : ℚ) ≤ 16 ∧ (16 : ℚ) ≤ 20) ∧
    (zoomAt (1 / 2) 0 0 (zoomAt 2 0 0
      { zoom := 16, scrollLeft := 2000, scrollTop := 2000 })).zoom ≠ 16 := by
  constructor
  · constructor <;> norm_num
  · have e1 : zoomAt 2 0 0 { zoom := 16, scrollLeft := 2000, scrollTop := 2000 } =
        { zoom := 20, scrollLeft := 2000, scrollTop := 2000 } := by
      simp only [zoomAt, clampZoom, PADDING]
      rw [max_eq_right (by norm_num), min_eq_left (by norm_num),
        if_pos (by rw [show (20 : ℚ) - 16 = 4 by norm_num, abs_of_pos (by norm_num : (0:ℚ) < 4)]
                   norm_num)]
      simp only [ZoomPan.mk.injEq]
      norm_num
    have e2 : zoomAt (1 / 2) 0 0 { zoom := 20, scrollLeft := 2000, scrollTop := 2000 } =
        { zoom := 10, scrollLeft := 2000, scrollTop := 2000 } := by
      simp only [zoomAt, clampZoom, PADDING]
      rw [show (20 : ℚ) * (1 / 2) = 10 by norm_num,
        max_eq_right (by norm_num), min_eq_right (by norm_num),
        if_pos (by rw [show (10 : ℚ) - 20 = -10 by norm_num, abs_neg,
                       abs_of_pos (by norm_num : (0:ℚ) < 10)]
                   norm_num)]
      simp only [ZoomPan.mk.injEq]
      norm_num
    rw [e1, e2]
    norm_num

/-- C7 (amended): for an initial zoom z in [0.001, 10] — so that the doubled
zoom stays within the clamp range [0.001, 20] — `zoomAt(2.0, focal)` then
`zoomAt(0.5, focal)` at the same focal point restores the zoom and both
scroll offsets exactly, hence the image-space point under the focal point is
unchanged; for z in (10, 20] the doubling clamps at 20 and the round trip
lands elsewhere (see the counterexample). -/
theorem C7_zoom_roundtrip (z sl st viewX viewY : ℚ)
    (hlo : 1 / 1000 ≤ z) (hhi : z ≤ 10) :
    zoomAt (1 / 2) viewX viewY (zoomAt 2 viewX viewY
      { zoom := z, scrollLeft := sl, scrollTop := st }) =
      { zoom := z, scrollLeft := sl, scrollTop := st } ∧
    imagePointX viewX (zoomAt (1 / 2) viewX viewY (zoomAt 2 viewX viewY
      { zoom := z, scrollLeft := sl, scrollTop := st })) =
      imagePointX viewX { zoom := z, scrollLeft := sl, scrollTop := st } ∧
    imagePointY viewY (zoomAt (1 / 2) viewX viewY (zoomAt 2 viewX viewY
      { zoom := z, scrollLeft := sl, scrollTop := st })) =
      imagePointY viewY { zoom := z, scrollLeft := sl, scrollTop := st } := by
  have hzpos : (0 : ℚ) < z := lt_of_lt_of_le (by norm_num) hlo
  have hz0 : z ≠ 0 := ne_of_gt hzpos
  have h1 : zoomAt 2 viewX viewY { zoom := z, scrollLeft := sl, scrollTop := st } =
      { zoom := z * 2,
        scrollLeft := PADDING + (sl + viewX - PADDING) / z * (z * 2) - viewX,
        scrollTop := PADDING + (st + viewY - PADDING) / z * (z * 2) - viewY } := by
    simp only [zoomAt, clampZoom]
    rw [max_eq_right (by linarith), min_eq_right (by linarith),
      if_pos (by rw [show z * 2 - z = z by ring, abs_of_pos hzpos]; linarith)]
  have h2 : zoomAt (1 / 2) viewX viewY
      { zoom := z * 2,
        scrollLeft := PADDING + (sl + viewX - PADDING) / z * (z * 2) - viewX,
        scrollTop := PADDING + (st + viewY - PADDING) / z * (z * 2) - viewY } =
      { zoom := z, scrollLeft := sl, scrollTop := st } := by
    simp only [zoomAt, clampZoom]
    rw [show z * 2 * (1 / 2) = z by ring,
      max_eq_right (by linarith), min_eq_right (by linarith),
      if_pos (by rw [show z - z * 2 = -z by ring, abs_neg, abs_of_pos hzpos]; linarith)]
    simp only [ZoomPan.mk.injEq, PADDING]
    refine ⟨trivial, ?_, ?_⟩ <;> (field_simp; ring)
  exact ⟨by rw [h1, h2], by rw [h1, h2], by rw [h1, h2]⟩

/-- C7 witness: the round trip at a concrete in-range state. -/
theorem C7_zoom_roundtrip_witness :
    zoomAt (1 / 2) 10 0 (zoomAt 2 10 0
      { zoom := 1, scrollLeft := 2345, scrollTop := 1999 }) =
      { zoom := 1, scrollLeft := 2345, scrollTop := 1999 } :=
  (C7_zoom_roundtrip 1 2345 1999 10 0 (by norm_num) (by norm_num)).1

/-- C8: any positive aspect within 0.001 of the image's own (positive)
native aspect makes `onAspectChange` select the full-frame rect rather than
whatever the centered aspect crop would have produced, for every possible
centered-crop function. -/
theorem C8_native_aspect_full_frame (centerAspect : ℚ → ℚ → ℚ → Rect)
    (W H width height a : ℚ) (hW : 0 < W) (hH : 0 < H) (ha : 0 < a)
    (hclose : |a - W / H| < 1 / 1000) :
    onAspectChangeCrop centerAspect (some (W / H)) width height (some a) = fullFrameRect := by
  have h0 : W / H ≠ 0 := ne_of_gt (div_pos hW hH)
  simp only [onAspectChangeCrop]
  rw [if_pos ⟨h0, hclose⟩]

/-- C8 witness: the exact native ratio of a 1600×900 image (16/9) selects
the full frame, even though a 90%-style centered crop function is
available. -/
theorem C8_native_aspect_full_frame_witness :
    onAspectChangeCrop (fun _ _ _ => { x := 5, y := 5, width := 90, height := 90 })
      (some ((1600 : ℚ) / 900)) 800 450 (some (16 / 9)) = fullFrameRect :=
  C8_native_aspect_full_frame (fun _ _ _ => { x := 5, y := 5, width := 90, height := 90 })
    1600 900 800 450 (16 / 9) (by norm_num) (by norm_num) (by norm_num)
    (by rw [show ((1600 : ℚ) / 900) = 16 / 9 by norm_num, sub_self, abs_zero]; norm_num)

/-- C9 counterexample: batch apply over a single item that already carries an
output bitmap (url 7); its encode step yields no data, yet the item's state
is changed — the prior output is overwritten with null and the crop config
is overwritten as well, so the prior state is not retained. -/
theorem C9_applyAll_encode_failure_overwrites :
    imgDone.cropped = some 7 ∧
    handleApplyAll decodeAll encodeNone refCrop 100 100 none 0 [imgDone] =
      some [{ url := 1, cropped := none,
              cropConfig := some { crop := { x := 25, y := 25, width := 50, height := 50 },
                                   aspect := none, rotation := 0 } }] := by
  refine ⟨rfl, ?_⟩
  norm_num [handleApplyAll, completedToPercent, promiseAll, applyAllItem, decodeAll,
    encodeNone, refCrop, imgDone, toPixelRect, mkBatchCanvas]

/-- C9 (amended): in the single-item save, an encode step yielding no data
aborts the save and the gallery — including the item's prior output bitmap —
is left unchanged; in the batch apply, by contrast, an item whose encode
yields no data has its output overwritten with null and its crop config
overwritten, while other items are unaffected (the per-item body touches
only its own item). -/
theorem C9_encode_failure_policy :
    (∀ (encode : Canvas → Option ℕ) (canvas : Canvas) (images : List GalleryItem)
      (editingIdx : ℕ) (crop : Rect) (aspect : Option ℚ) (rotation : ℤ),
      encode canvas = none →
      handleSave encode canvas images editingIdx crop aspect rotation = images) ∧
    (∀ (decode : ℕ → Option Bitmap) (encode : Canvas → Option ℕ) (pRect : Rect)
      (aspect : Option ℚ) (rotation : ℤ) (img : GalleryItem) (bmp : Bitmap),
      decode img.url = some bmp →
      encode (mkBatchCanvas (toPixelRect pRect bmp.naturalWidth bmp.naturalHeight) rotation) =
        none →
      applyAllItem decode encode pRect aspect rotation img =
        some { img with
                cropped := none
                cropConfig := some { crop := pRect, aspect := aspect, rotation := rotation } }) := by
  constructor
  · intro encode canvas images editingIdx crop aspect rotation henc
    simp only [handleSave, henc]
  · intro decode encode pRect aspect rotation img bmp hdec henc
    simp [applyAllItem, hdec, henc]

/-- C9 witness: the single-item save policy at a concrete failing encode. -/
theorem C9_encode_failure_policy_witness :
    handleSave encodeNone (mkBatchCanvas refCrop 0) [imgDone] 0 refCrop none 0 = [imgDone] :=
  C9_encode_failure_policy.1 encodeNone (mkBatchCanvas refCrop 0) [imgDone] 0 refCrop none 0 rfl

/-- The session-init effect on a state editing an existing item: the live
geometry and the history are reset from that item's starting snapshot. -/
theorem sessionInit_eq (t : AppState) (j : ℕ) (itemJ : GalleryItem)
    (h1 : t.editingIdx = some j) (h2 : t.images[j]? = some itemJ) :
    sessionInit t =
      { t with
          crop := some (startConfig itemJ).crop
          aspect := (startConfig itemJ).aspect
          rotation := (startConfig itemJ).rotation
          history := [{ crop := some (startConfig itemJ).crop,
                        aspect := (startConfig itemJ).aspect,
                        rotation := (startConfig itemJ).rotation }]
          historyPointer := 0 } := by
  simp only [sessionInit, h1, h2]

/-- C10: switching the editor from the item at index i to item j — closing
via `navigateTo(null)` (which persists the outgoing snapshot) and opening
item j (whose session effect reinitializes the state) — first writes the
current crop/aspect/rotation onto the outgoing item's saved config, and then
resets crop, aspect, rotation and the history stack to a single entry equal
to the incoming item's saved snapshot (or the default snapshot when it has
none) with the pointer at 0; the direct `navigateTo(j)` path yields the very
same state. -/
theorem C10_switch_persists_then_resets (s : AppState) (i : ℕ) (c : Rect)
    (j : ℕ) (itemI itemJ : GalleryItem)
    (h1 : s.editingIdx = some i) (h2 : s.crop = some c)
    (hI : s.images[i]? = some itemI)
    (hJ : (navigateTo s none).images[j]? = some itemJ) :
    (switchItem s j).images[i]? =
      some { itemI with
              cropConfig := some { crop := c, aspect := s.aspect, rotation := s.rotation } } ∧
    (switchItem s j).history =
      [{ crop := some (startConfig itemJ).crop, aspect := (startConfig itemJ).aspect,
         rotation := (startConfig itemJ).rotation }] ∧
    (switchItem s j).historyPointer = 0 ∧
    (switchItem s j).crop = some (startConfig itemJ).crop ∧
    (switchItem s j).aspect = (startConfig itemJ).aspect ∧
    (switchItem s j).rotation = (startConfig itemJ).rotation ∧
    switchItem s j = sessionInit (navigateTo s (some j)) := by
  have hdirect : switchItem s j = sessionInit (navigateTo s (some j)) := rfl
  have hJ' : (navigateTo s (some j)).editingIdx = some j := rfl
  have hJ2 : (navigateTo s (some j)).images[j]? = some itemJ := hJ
  have hmain := sessionInit_eq (navigateTo s (some j)) j itemJ hJ' hJ2
  have himages : (navigateTo s (some j)).images[i]? =
      some { itemI with
              cropConfig := some { crop := c, aspect := s.aspect, rotation := s.rotation } } := by
    simp only [navigateTo, h1, h2]
    rw [getElem?_mapIdx]
    simp [hI]
  rw [hdirect, hmain]
  exact ⟨himages, rfl, rfl, rfl, rfl, rfl, rfl⟩

/-- C10 witness: switching from item 0 to item 1 of the concrete two-item
state persists the current snapshot onto item 0 and resets the pointer. -/
theorem C10_switch_persists_then_resets_witness :
    (switchItem sW 1).images[0]? =
      some { imgA with
              cropConfig := some { crop := { x := 9, y := 9, width := 10, height := 10 },
                                   aspect := none, rotation := 7 } } ∧
    (switchItem sW 1).historyPointer = 0 :=
  ⟨(C10_switch_persists_then_resets sW 0 { x := 9, y := 9, width := 10, height := 10 } 1
      imgA item1 rfl rfl rfl rfl).1,
   (C10_switch_persists_then_resets sW 0 { x := 9, y := 9, width := 10, height := 10 } 1
      imgA item1 rfl rfl rfl rfl).2.2.1⟩

end BulkCrop
